import Mathlib

/-!
Verification of the athenadriver connection layer (prequel-co/athenadriver).

This file is a shallow embedding of go/connection.go (parameter
interpolation, execution-parameter construction, and the QueryContext
submit/poll/cancel/timeout state machine) together with the small part of
go/wg.go that QueryContext uses.  Go strings and byte buffers are
modelled as `List Char`; the Go (value, error) multiple returns are
modelled as pairs with an `Option` error component; the remote Athena
client is modelled by a response script, and every remote invocation the
code performs is recorded in a call transcript.  Helpers that live in
repository files not available here (utils.go, constants) are modelled
from the specification and carry a doc comment starting with
"Modelled from the spec:".
-/

/-- Go strings (and byte slices) are modelled as lists of characters. -/
abbrev GoStr := List Char

/-- The single-quote character. -/
def sqc : Char := Char.ofNat 39

/-- The backslash character. -/
def bsc : Char := Char.ofNat 92

/-- The double-quote character. -/
def dqc : Char := Char.ofNat 34

/-- A Go error value returned by the AWS client.  `httpResponse` models an
awshttp ResponseError (which errors.As recognises and which carries a
service request identifier); `mk` models any other error value. -/
inductive GoError where
  | mk (msg : GoStr)
  | httpResponse (msg : GoStr) (requestID : GoStr)
deriving DecidableEq, Repr

/-- The caller-side cancellation reason, i.e. the value of ctx.Err(). -/
inductive CtxErr where
  | canceled
  | deadlineExceeded
deriving DecidableEq, Repr

/-- Error values produced by the connection layer itself (the named
package error values plus the errors it constructs with fmt.Errorf and
errors.New). -/
inductive Err where
  | invalidQuery                      -- ErrInvalidQuery
  | unknownType                       -- ErrQueryUnknownType
  | bufferOF                          -- ErrQueryBufferOF
  | queryTimeout                      -- ErrQueryTimeout
  | writeViolation                    -- writing in read-only mode is disallowed
  | pseudoCommandNotExist (q : GoStr) -- unknown pseudo command
  | wgCreationDisabled (name : GoStr) -- workgroup missing, remote creation disabled
  | wgDisabled (name : GoStr)         -- workgroup disabled
  | remote (e : GoError)              -- a remote-call error propagated as-is
  | fromReason (r : GoStr)            -- errors.New(reason) for a Failed execution
  | ctxError (c : CtxErr)             -- context.Canceled / ctx.Err()
  | outOfRangePanic                   -- args exhausted with a placeholder left:
                                      -- unreachable after the count guard; Go would
                                      -- panic; modelled as a distinguished value
deriving DecidableEq, Repr

/-- Modelled from the spec: the configured maximum query length
(MAXQueryStringLength, defined in a constants file absent from src).
The spec fixes only the factor-10 relation between this constant and the
interpolation growth bound, not the numeric value; any positive value
exhibits the same behaviour. -/
def MAXQueryStringLength : Nat := 262144

/-- Modelled from the spec: one character of the standard SQL backslash
escaping used by escapeStringBackslash and escapeBytesBackslash in the
utils.go of the repository (absent from src): it escapes backslash,
quotes, NUL and the control characters that require escaping. -/
def escapeChar (c : Char) : GoStr :=
  if c = Char.ofNat 0 then [bsc, '0']
  else if c = Char.ofNat 10 then [bsc, 'n']
  else if c = Char.ofNat 13 then [bsc, 'r']
  else if c = Char.ofNat 26 then [bsc, 'Z']
  else if c = sqc then [bsc, sqc]
  else if c = dqc then [bsc, dqc]
  else if c = bsc then [bsc, bsc]
  else [c]

/-- Modelled from the spec: escapeStringBackslash from the utils.go of the
repository (absent from src): backslash-escape every character of a text
value. -/
def escapeStringBackslash (s : GoStr) : GoStr :=
  (s.map escapeChar).flatten

/-- Modelled from the spec: escapeBytesBackslash from the utils.go of the
repository (absent from src): the same backslash escaping applied to a
byte sequence. -/
def escapeBytesBackslash (s : GoStr) : GoStr :=
  (s.map escapeChar).flatten

/-- Modelled from the spec: the digits10 lookup table of the utils.go of
the repository (absent from src): the tens digit of a two-digit
zero-padded rendering.  The Go table is defined (and indexed) only for
0 <= n < 100; the trailing mod 10 makes the model total without changing
it on that domain. -/
def digits10 (n : Nat) : Char := Char.ofNat (48 + n / 10 % 10)

/-- Modelled from the spec: the digits01 lookup table of the utils.go of
the repository (absent from src): the units digit of a two-digit
zero-padded rendering. -/
def digits01 (n : Nat) : Char := Char.ofNat (48 + n % 10)

/-- Decimal rendering of a natural number (strconv.FormatUint base 10). -/
def formatNat (n : Nat) : GoStr := Nat.toDigits 10 n

/-- Decimal rendering of an integer (strconv.FormatInt base 10). -/
def formatInt : Int → GoStr
  | Int.ofNat n => formatNat n
  | Int.negSucc m => '-' :: formatNat (m + 1)

/-- A Go time.Time instant, modelled as nanoseconds since
0001-01-01 00:00:00 UTC.  IsZero() is `t = 0`; In(time.UTC) is the
identity on the absolute instant, which is what this number records. -/
abbrev GoTime := Nat

/-- Cumulative day counts before each month (the daysBefore table used by
the Go time package for civil-date decomposition). -/
def daysBefore : List Nat := [0, 31, 59, 90, 120, 151, 181, 212, 243, 273, 304, 334, 365]

/-- Gregorian leap-year test. -/
def isLeapYear (y : Nat) : Bool := y % 4 = 0 && (y % 100 ≠ 0 || y % 400 = 0)

/-- Month and day-of-month from a 0-based day-of-year, following the
algorithm of the Go time package (estimate the month as d / 31, then
correct with the daysBefore table; leap day handled first). -/
def yearDayToMonthDay (leap : Bool) (yday : Nat) : Nat × Nat :=
  if leap && yday = 59 then (2, 29)
  else
    let d := if leap && 59 < yday then yday - 1 else yday
    let m0 := d / 31
    let e := daysBefore.getD (m0 + 1) 0
    if e ≤ d then (m0 + 2, d - e + 1)
    else (m0 + 1, d - daysBefore.getD m0 0 + 1)

/-- Year, month and day from a count of days since 0001-01-01, following
the cycle-cutting algorithm of the Go time package (400-year, 100-year,
4-year and 1-year cycles, with the cap on the 100-year and 1-year
counts). -/
def absDate (days : Nat) : Nat × Nat × Nat :=
  let d0 := days % 146097
  let y400 := 400 * (days / 146097)
  let n100 := d0 / 36524
  let n100 := n100 - n100 / 4
  let d1 := d0 - 36524 * n100
  let d2 := d1 % 1461
  let y4 := 4 * (d1 / 1461)
  let n1 := d2 / 365
  let n1 := n1 - n1 / 4
  let yday := d2 - 365 * n1
  let year := y400 + 100 * n100 + y4 + n1 + 1
  let md := yearDayToMonthDay (isLeapYear year) yday
  (year, md.1, md.2)

/-- The seven calendar/clock fields the Go time package exposes for an
instant (microseconds already truncated from the nanosecond part). -/
structure DateTimeFields where
  year : Nat
  month : Nat
  day : Nat
  hour : Nat
  minute : Nat
  second : Nat
  micro : Nat
deriving DecidableEq, Repr

/-- Decompose an instant into calendar and clock fields, the way the
accessors Year, Month, Day, Hour, Minute, Second and Nanosecond of the Go
time package do for a UTC instant. -/
def goDecompose (u : GoTime) : DateTimeFields :=
  let sec := u / 1000000000
  let sod := sec % 86400
  let ymd := absDate (sec / 86400)
  ⟨ymd.1, ymd.2.1, ymd.2.2, sod / 3600, sod % 3600 / 60, sod % 60, u % 1000000000 / 1000⟩

/-- The single-quoted sentinel literal 0000-00-00 used for the zero
timestamp. -/
def zeroDateLit : GoStr := sqc :: "0000-00-00".toList ++ [sqc]

/-- The timestamp literal interpolateParams appends for a time.Time
argument (connection.go lines 160-204): the zero value renders as the
sentinel; otherwise the instant is taken in UTC, 500ns are added to round
under a microsecond, and the fields are rendered through the digits10 and
digits01 tables, with the 6-digit microsecond block appended only when it
is non-zero. -/
def interpTimeFragment (t : GoTime) : GoStr :=
  if t = 0 then zeroDateLit
  else
    let f := goDecompose (t + 500)
    let year100 := f.year / 100
    let year1 := f.year % 100
    [sqc,
     digits10 year100, digits01 year100, digits10 year1, digits01 year1, '-',
     digits10 f.month, digits01 f.month, '-',
     digits10 f.day, digits01 f.day, ' ',
     digits10 f.hour, digits01 f.hour, ':',
     digits10 f.minute, digits01 f.minute, ':',
     digits10 f.second, digits01 f.second]
    ++ (if f.micro ≠ 0 then
          let m10000 := f.micro / 10000
          let m100 := f.micro / 100 % 100
          let m1 := f.micro % 100
          ['.', digits10 m10000, digits01 m10000,
           digits10 m100, digits01 m100,
           digits10 m1, digits01 m1]
        else [])
    ++ [sqc]

/-- One digit character of n (units digit, used with pre-division for
higher positions). -/
def digitChar (n : Nat) : Char := Char.ofNat (48 + n % 10)

/-- Two-digit zero-padded decimal rendering (Go layouts 01 through 05). -/
def pad2 (n : Nat) : GoStr := [digitChar (n / 10), digitChar n]

/-- Four-digit zero-padded decimal rendering (Go layout 2006). -/
def pad4 (n : Nat) : GoStr :=
  [digitChar (n / 1000), digitChar (n / 100), digitChar (n / 10), digitChar n]

/-- Six-digit zero-padded decimal rendering (Go layout .000000, the
microsecond block). -/
def pad6 (n : Nat) : GoStr :=
  [digitChar (n / 100000), digitChar (n / 10000), digitChar (n / 1000),
   digitChar (n / 100), digitChar (n / 10), digitChar n]

/-- The Go rendering Format(time.DateTime), i.e. layout
2006-01-02 15:04:05, for a UTC instant. -/
def formatDateTime (f : DateTimeFields) : GoStr :=
  pad4 f.year ++ ['-'] ++ pad2 f.month ++ ['-'] ++ pad2 f.day ++ [' ']
  ++ pad2 f.hour ++ [':'] ++ pad2 f.minute ++ [':'] ++ pad2 f.second

/-- The timestamp string buildExecutionParams produces for a time.Time
argument (connection.go lines 81-98): the zero value is special-cased to
the sentinel; otherwise the instant is taken in UTC, 500ns are added to
round under a microsecond, and it is rendered with
timestampFormatDriverMicro (2006-01-02 15:04:05.000000) unless the
microsecond part is zero, in which case time.DateTime is used. -/
def buildTimeFragment (t : GoTime) : GoStr :=
  if t = 0 then zeroDateLit
  else
    let v := t + 500
    let f := goDecompose v
    if v % 1000000000 / 1000 = 0 then [sqc] ++ formatDateTime f ++ [sqc]
    else [sqc] ++ formatDateTime f ++ ['.'] ++ pad6 f.micro ++ [sqc]

/-- A driver.Value argument after driver.DefaultParameterConverter: nil,
int64, uint64, float64, bool, time.Time, a byte slice, a string, or any
other (unsupported) type.  A float64 is modelled by its shortest
round-tripping decimal text (strconv.FormatFloat with format g and
precision -1), which is an injective encoding of the value; both
interpolation operations render a float by exactly that call, so this is
the only view of the value the embedded code needs. -/
inductive Value where
  | null
  | int (v : Int)
  | uint (v : Nat)
  | float (repr : GoStr)
  | bool (v : Bool)
  | time (t : GoTime)
  | bytes (v : GoStr)
  | str (v : GoStr)
  | other
deriving DecidableEq, Repr

/-- Whether a driver.Value is of one of the types the two interpolation
operations support (everything except the default case of their type
switches). -/
def isSupported : Value → Bool
  | Value.other => false
  | _ => true

/-- Whether an argument is Go nil (handled before the type switch in both
operations). -/
def isNullV : Value → Bool
  | Value.null => true
  | _ => false

/-- The literal fragment interpolateParams appends to the query buffer for
one argument (connection.go lines 142-215), by argument type. -/
def interpFragment : Value → Option GoStr
  | Value.null => some "NULL".toList
  | Value.int v => some (formatInt v)
  | Value.uint v => some (formatNat v)
  | Value.float r => some r
  | Value.bool v => some (if v then ['1'] else ['0'])
  | Value.time t => some (interpTimeFragment t)
  | Value.bytes v => some ("_binary".toList ++ [sqc] ++ escapeBytesBackslash v ++ [sqc])
  | Value.str v => some ([sqc] ++ escapeStringBackslash v ++ [sqc])
  | Value.other => none

/-- Split a string at its first question mark: some (before, after) with
the question mark removed, or none when there is none (strings.IndexByte
returning -1). -/
def splitAtQ : GoStr → Option (GoStr × GoStr)
  | [] => none
  | c :: cs =>
      if c = '?' then some ([], cs)
      else (splitAtQ cs).map (fun p => (c :: p.1, p.2))

/-- The placeholder-substitution loop of interpolateParams (connection.go
lines 130-220).  Text up to the next placeholder is copied, the literal
for the next argument is appended, and after every non-nil argument the
buffer-overflow guard (buffer length + 4 exceeding 10 times
MAXQueryStringLength) is checked; a nil argument appends NULL and
continues, skipping the guard.  When no placeholder remains the rest of
the query is copied and the loop breaks. -/
def interpLoop : List Value → GoStr → GoStr → GoStr × Option Err
  | args, rest, buf =>
    match splitAtQ rest with
    | none => (buf ++ rest, none)
    | some (before, after) =>
      match args with
      | [] => ([], some Err.outOfRangePanic)
      | a :: as =>
        if isNullV a then
          interpLoop as after (buf ++ before ++ "NULL".toList)
        else
          match interpFragment a with
          | none => ([], some Err.unknownType)
          | some frag =>
            let buf2 := buf ++ before ++ frag
            if 10 * MAXQueryStringLength < buf2.length + 4 then
              ([], some Err.bufferOF)
            else interpLoop as after buf2

/-- The method Connection.interpolateParams (connection.go lines 119-222):
reject a placeholder/argument count mismatch with ErrInvalidQuery, then
substitute every placeholder. -/
def interpolateParams (query : GoStr) (args : List Value) : GoStr × Option Err :=
  if query.count '?' ≠ args.length then ([], some Err.invalidQuery)
  else interpLoop args query []

/-- The string buildExecutionParams produces for one argument
(connection.go lines 61-115), by argument type.  Byte and string values
are passed through verbatim (no quoting, no escaping, no binary-literal
prefix); the other types render exactly as in interpolateParams. -/
def buildFragment : Value → Option GoStr
  | Value.null => some "NULL".toList
  | Value.int v => some (formatInt v)
  | Value.uint v => some (formatNat v)
  | Value.float r => some r
  | Value.bool v => some (if v then ['1'] else ['0'])
  | Value.time t => some (buildTimeFragment t)
  | Value.bytes v => some v
  | Value.str v => some v
  | Value.other => none

/-- The accumulation loop of buildExecutionParams: arguments are converted
in order and an unsupported type aborts with ErrQueryUnknownType and an
empty slice. -/
def buildLoop : List Value → List GoStr → List GoStr × Option Err
  | [], acc => (acc, none)
  | a :: as, acc =>
    match buildFragment a with
    | none => ([], some Err.unknownType)
    | some f => buildLoop as (acc ++ [f])

/-- The method Connection.buildExecutionParams (connection.go lines
55-117): nil for no arguments, otherwise one literal string per
argument. -/
def buildExecutionParams (args : List Value) : List GoStr × Option Err :=
  if args.isEmpty then ([], none)
  else buildLoop args []

/-- Athena query-execution states (athenatypes.QueryExecutionState). -/
inductive QState where
  | queued
  | running
  | succeeded
  | failed
  | cancelled
deriving DecidableEq, Repr

/-- The string value of a QueryExecutionState (used by the status
pseudo-command result page). -/
def stateStr : QState → GoStr
  | QState.queued => "QUEUED".toList
  | QState.running => "RUNNING".toList
  | QState.succeeded => "SUCCEEDED".toList
  | QState.failed => "FAILED".toList
  | QState.cancelled => "CANCELLED".toList

/-- Athena statement types (athenatypes.StatementType); `other` covers any
further string value the service may report. -/
inductive StmtType where
  | ddl
  | dml
  | utility
  | other
deriving DecidableEq, Repr

/-- The part of a GetQueryExecution response that QueryContext reads: the
state, the nullable StateChangeReason pointer, and the statement type. -/
structure StatusResp where
  state : QState
  stateChangeReason : Option GoStr
  statementType : StmtType
deriving DecidableEq, Repr

/-- Modelled from the spec: isQueryTimeOut from the utils.go of the
repository (absent from src): the elapsed wall-clock seconds since
submission are compared against a timeout policy keyed by statement type
(DDL vs DML vs unknown), with an optional service-limit override taking
precedence.  The numeric limits are not given by the spec; the behaviour
proved about it depends only on its Boolean outcome. -/
def isQueryTimeOut (elapsedSeconds : Nat) (st : StmtType) (override : Option Nat) : Bool :=
  let limit :=
    match override with
    | some l => l
    | none =>
      match st with
      | StmtType.ddl => 600
      | StmtType.dml => 1800
      | StmtType.utility => 1800
      | StmtType.other => 1800
  decide (limit < elapsedSeconds)

/-- One suspension of the select in the poll loop: either the caller
cancellation signal fires (carrying the value ctx.Err() will then have),
or the poll-interval timer fires (carrying the elapsed wall-clock seconds
since submission on which isQueryTimeOut is then evaluated). -/
inductive Event where
  | ctxDone (ce : CtxErr)
  | timer (elapsedSeconds : Nat)
deriving DecidableEq, Repr

/-- Workgroup state reported by GetWorkGroup. -/
inductive WGState where
  | enabled
  | disabled
deriving DecidableEq, Repr

/-- A remote Athena call recorded in the transcript of an embedded
QueryContext run. -/
inductive RemoteCall where
  | getWGCall (name : GoStr)
  | createWGCall (name : GoStr)
  | startCall (query : GoStr)
  | getExecCall (qid : GoStr)
  | stopCall (qid : GoStr)
deriving DecidableEq, Repr

/-- Whether a transcript entry is a StopQueryExecution call. -/
def isStopCall : RemoteCall → Bool
  | RemoteCall.stopCall _ => true
  | _ => false

/-- Whether a transcript entry is a GetQueryExecution call. -/
def isGetExecCall : RemoteCall → Bool
  | RemoteCall.getExecCall _ => true
  | _ => false

/-- The outcomes the remote client will give this run, one field per
remote operation (GetQueryExecution outcomes as a list consumed in poll
order, paired with the select events). -/
structure ClientScript where
  getWGRes : Except GoError WGState
  createWGRes : Option GoError
  startRes : Option GoStr × Option GoError
  statusPolls : List (Except GoError StatusResp)
  stopRes : Except GoError Unit
  events : List Event
deriving Repr

/-- The session configuration fields QueryContext consults
(connector.config). -/
structure Config where
  readOnly : Bool
  moneyWise : Bool
  wgName : GoStr
  wgRemoteCreationAllowed : Bool
  serviceLimitOverride : Option Nat
deriving DecidableEq, Repr

/-- Modelled from the spec: the default workgroup name (DefaultWGName,
constants file absent from src). -/
def DefaultWGName : GoStr := "primary".toList

/-- Modelled from the spec: the driver version string returned by the
get-driver-version pseudo command (constants file absent from src). -/
def DriverVersion : GoStr := "1.0".toList

/-- Modelled from the spec: isReadOnlyStatement from the utils.go of the
repository (absent from src): classification of a statement as read-only
by case-insensitive keyword-prefix inspection of the query text. -/
def isReadOnlyStatement (q : GoStr) : Bool :=
  let u := q.map Char.toUpper
  "SELECT".toList.isPrefixOf u || "SHOW".toList.isPrefixOf u || "DESC".toList.isPrefixOf u

/-- Modelled from the spec: isQueryValid from the utils.go of the
repository (absent from src): the minimal structural validity check, a
non-empty query no longer than the configured maximum query length. -/
def isQueryValid (q : GoStr) : Bool :=
  decide (q.length ≠ 0) && decide (q.length ≤ MAXQueryStringLength)

/-- A lowercase hexadecimal digit. -/
def isHexLower (c : Char) : Bool := c.isDigit || ('a' ≤ c && c ≤ 'f')

/-- Modelled from the spec: IsQID from the utils.go of the repository
(absent from src): whether a string is execution-identifier-shaped, i.e.
matches the fixed 8-4-4-4-12 dashed hexadecimal identifier format. -/
def IsQID (q : GoStr) : Bool :=
  ((q.splitOn '-').map List.length) == [8, 4, 4, 4, 12]
  && q.all (fun c => c = '-' || isHexLower c)

/-- A single synthetic result page (newHeaderlessResultPage): column
names, declared column types, and rows of nullable string cells. -/
structure ResultPage where
  columnNames : List GoStr
  columnTypes : List GoStr
  data : List (List (Option GoStr))
deriving DecidableEq, Repr

/-- The driver.Rows value an embedded QueryContext run produces: either a
cursor over the remote result of an execution (NewRows), or a synthetic
headerless page (NewNonOpsRows plus a constructed ResultOutput). -/
inductive Rows where
  | fetched (qid : GoStr)
  | page (p : ResultPage)
deriving DecidableEq, Repr

/-- The method Connection.getHeaderlessSingleRowResultPage (connection.go
lines 281-290): a single-row, single-column page named _col0 of type
string holding the given value.  NewNonOpsRows performs no remote
operation. -/
def getHeaderlessSingleRowResultPage (v : GoStr) : Rows :=
  Rows.page ⟨["_col0".toList], ["string".toList], [[some v]]⟩

/-- The outcome of an embedded QueryContext run: a rows value, an error
return, a nil-pointer dereference (a Go panic), or the response script ran
out before the code reached a return (an incomplete run, never produced
when the script covers the run). -/
inductive QCResult where
  | ok (r : Rows)
  | err (e : Err)
  | fault
  | outOfScript
deriving DecidableEq, Repr

/-- Outcome of the waiting-for-result loop alone. -/
inductive LoopOut where
  | success
  | errOut (e : Err)
  | fault
  | outOfScript
deriving DecidableEq, Repr

/-- The waiting-for-result poll loop of QueryContext (connection.go lines
441-523).  Each iteration issues GetQueryExecution; a Cancelled state
returns context.Canceled, a Failed state dereferences the nullable
StateChangeReason (a nil pointer faults) and returns it as an error,
Succeeded leaves the loop, and any other state suspends on the select: if
the caller cancellation fires, one StopQueryExecution is issued, whose
failure is returned, and otherwise (after a GetQueryExecution for cost
accounting when moneywise is on) ctx.Err() is returned; if the timer fires
instead, isQueryTimeOut decides between ErrQueryTimeout and the next
iteration. -/
def pollLoop (qid : GoStr) (mw : Bool) (stopRes : Except GoError Unit)
    (override : Option Nat) :
    List (Except GoError StatusResp) → List Event → LoopOut × List RemoteCall
  | [], _ => (LoopOut.outOfScript, [])
  | p :: ps, evs =>
    match p with
    | Except.error e => (LoopOut.errOut (Err.remote e), [RemoteCall.getExecCall qid])
    | Except.ok s =>
      match s.state with
      | QState.cancelled =>
          (LoopOut.errOut (Err.ctxError CtxErr.canceled), [RemoteCall.getExecCall qid])
      | QState.failed =>
          match s.stateChangeReason with
          | none => (LoopOut.fault, [RemoteCall.getExecCall qid])
          | some r => (LoopOut.errOut (Err.fromReason r), [RemoteCall.getExecCall qid])
      | QState.succeeded => (LoopOut.success, [RemoteCall.getExecCall qid])
      | _ =>
        match evs with
        | [] => (LoopOut.outOfScript, [RemoteCall.getExecCall qid])
        | Event.ctxDone ce :: _ =>
          match stopRes with
          | Except.error e =>
              (LoopOut.errOut (Err.remote e),
               [RemoteCall.getExecCall qid, RemoteCall.stopCall qid])
          | Except.ok _ =>
              (LoopOut.errOut (Err.ctxError ce),
               [RemoteCall.getExecCall qid, RemoteCall.stopCall qid]
                 ++ if mw then [RemoteCall.getExecCall qid] else [])
        | Event.timer el :: evs2 =>
          if isQueryTimeOut el s.statementType override then
            (LoopOut.errOut Err.queryTimeout, [RemoteCall.getExecCall qid])
          else
            let rc := pollLoop qid mw stopRes override ps evs2
            (rc.1, RemoteCall.getExecCall qid :: rc.2)

/-- The pseudo-commands of the in-band control sub-language.  The command
strings are those of the query-string control surface in the spec
(get_query_id, get_query_id_status, stop_query_id, get_driver_version);
the PC constants live in a file absent from src. -/
inductive PC where
  | getQID
  | getQIDStatus
  | stopQID
deriving DecidableEq, Repr

/-- The Go call strings.Trim(s, cutset) for a cutset of one space: drop
spaces from both ends. -/
def trimSpaces (s : GoStr) : GoStr :=
  ((s.dropWhile (fun c => c = ' ')).reverse.dropWhile (fun c => c = ' ')).reverse

/-- The pseudo-command recognition prologue of QueryContext (connection.go
lines 304-318): a pc: prefix is stripped and the command identified;
get_driver_version returns a result page immediately and an unknown
command errors, both before anything else runs; the wrapping commands hand
the stripped remainder on. -/
def parsePseudo (query : GoStr) : (Option PC × GoStr) ⊕ QCResult :=
  if "pc:".toList.isPrefixOf query then
    let q := trimSpaces (query.drop 3)
    if "get_query_id ".toList.isPrefixOf q then
      Sum.inl (some PC.getQID, trimSpaces (q.drop 12))
    else if "get_query_id_status ".toList.isPrefixOf q then
      Sum.inl (some PC.getQIDStatus, trimSpaces (q.drop 19))
    else if "stop_query_id ".toList.isPrefixOf q then
      Sum.inl (some PC.stopQID, trimSpaces (q.drop 13))
    else if "get_driver_version".toList.isPrefixOf q then
      Sum.inr (QCResult.ok (getHeaderlessSingleRowResultPage DriverVersion))
    else Sum.inr (QCResult.err (Err.pseudoCommandNotExist q))
  else Sum.inl (none, query)

/-- The workgroup-resolution stage of QueryContext (connection.go lines
340-368): an empty configured name falls back to the default workgroup
with no remote call; a non-default name is looked up (getWG, one remote
GetWorkGroup via the cache), created remotely when allowed and missing,
and rejected when disabled.  Returns the transcript of workgroup calls, or
the error with its transcript. -/
def wgResolve (cfg : Config) (script : ClientScript) :
    Except (Err × List RemoteCall) (List RemoteCall) :=
  let name := if cfg.wgName = [] then DefaultWGName else cfg.wgName
  if name = DefaultWGName then Except.ok []
  else
    match script.getWGRes with
    | Except.error _ =>
      if cfg.wgRemoteCreationAllowed then
        match script.createWGRes with
        | some e =>
            Except.error (Err.remote e,
              [RemoteCall.getWGCall name, RemoteCall.createWGCall name])
        | none => Except.ok [RemoteCall.getWGCall name, RemoteCall.createWGCall name]
      else Except.error (Err.wgCreationDisabled name, [RemoteCall.getWGCall name])
    | Except.ok st =>
      if st = WGState.disabled then
        Except.error (Err.wgDisabled name, [RemoteCall.getWGCall name])
      else Except.ok [RemoteCall.getWGCall name]

/-- Map the outcome of the poll loop into the return value of
QueryContext: a successful loop fetches the paginated result (NewRows). -/
def mapLoopOut (qid : GoStr) : LoopOut → QCResult
  | LoopOut.success => QCResult.ok (Rows.fetched qid)
  | LoopOut.errOut e => QCResult.err e
  | LoopOut.fault => QCResult.fault
  | LoopOut.outOfScript => QCResult.outOfScript

/-- The tail of QueryContext after workgroup resolution (connection.go
lines 374-526): the interpolated query iq is checked for the
execution-identifier shape (case 1: status page, remote stop, or cached
results, per pseudo-command); otherwise the execution parameters are
built, the query submitted (StartQueryExecution receives the original
parameterized text), a start error is surfaced as-is, except that under
the get-execution-id pseudo-command a transport ResponseError
short-circuits into a page carrying the service request identifier, and a
missing identifier in a successful response is a nil dereference; the
get-execution-id pseudo-command short-circuits into a page carrying the
execution identifier, and every other query enters the poll loop. -/
def afterWG (pc : Option PC) (cfg : Config) (script : ClientScript)
    (iq query : GoStr) (args : List Value) : QCResult × List RemoteCall :=
  if IsQID iq then
    match pc with
    | some PC.getQIDStatus =>
      match script.statusPolls with
      | [] => (QCResult.outOfScript, [RemoteCall.getExecCall iq])
      | Except.error e :: _ => (QCResult.err (Err.remote e), [RemoteCall.getExecCall iq])
      | Except.ok s :: _ =>
          (QCResult.ok (getHeaderlessSingleRowResultPage (stateStr s.state)),
           [RemoteCall.getExecCall iq])
    | some PC.stopQID =>
      match script.stopRes with
      | Except.error e => (QCResult.err (Err.remote e), [RemoteCall.stopCall iq])
      | Except.ok _ =>
          (QCResult.ok (getHeaderlessSingleRowResultPage "OK".toList),
           [RemoteCall.stopCall iq])
    | _ => (QCResult.ok (Rows.fetched iq), [])
  else
    match buildExecutionParams args with
    | (_, some e) => (QCResult.err e, [])
    | (_, none) =>
      match script.startRes with
      | (_, some e) =>
        if pc = some PC.getQID then
          match e with
          | GoError.httpResponse _ rid =>
              (QCResult.ok (getHeaderlessSingleRowResultPage rid),
               [RemoteCall.startCall query])
          | _ => (QCResult.err (Err.remote e), [RemoteCall.startCall query])
        else (QCResult.err (Err.remote e), [RemoteCall.startCall query])
      | (none, none) => (QCResult.fault, [RemoteCall.startCall query])
      | (some qid, none) =>
        if pc = some PC.getQID then
          (QCResult.ok (getHeaderlessSingleRowResultPage qid),
           [RemoteCall.startCall query])
        else
          let rc := pollLoop qid cfg.moneyWise script.stopRes
            cfg.serviceLimitOverride script.statusPolls script.events
          (mapLoopOut qid rc.1, RemoteCall.startCall query :: rc.2)

/-- The method Connection.QueryContext (connection.go lines 302-526):
pseudo-command recognition, the read-only write-violation gate, parameter
interpolation (for a non-empty argument list), minimal query validation,
workgroup resolution, and then afterWG (submission and the poll loop).
The result carries the transcript of remote calls the run performed. -/
def QueryContext (cfg : Config) (script : ClientScript)
    (query : GoStr) (args : List Value) : QCResult × List RemoteCall :=
  match parsePseudo query with
  | Sum.inr r => (r, [])
  | Sum.inl (pc, q) =>
    if cfg.readOnly && !isReadOnlyStatement q then
      (QCResult.err Err.writeViolation, [])
    else
      match (if args.isEmpty then (q, none) else interpolateParams q args) with
      | (_, some e) => (QCResult.err e, [])
      | (iq, none) =>
        if !isQueryValid iq then (QCResult.err Err.invalidQuery, [])
        else
          match wgResolve cfg script with
          | Except.error ec => (QCResult.err ec.1, ec.2)
          | Except.ok wgCalls =>
            let rc := afterWG pc cfg script iq q args
            (rc.1, wgCalls ++ rc.2)

/-- Modelled from the spec (the rendering rule asserted by the spec and by
claim C6): zero timestamp renders as the single-quoted sentinel
0000-00-00; a non-zero timestamp is taken at its UTC instant, 500ns are
added before truncation to microseconds, and it renders single-quoted as
a zero-padded YYYY-MM-DD HH:MM:SS, with a 6-digit .ffffff microsecond
suffix appended exactly when the microsecond part is non-zero. -/
def specTimestampRender (t : GoTime) : GoStr :=
  if t = 0 then zeroDateLit
  else
    let f := goDecompose (t + 500)
    [sqc] ++ pad4 f.year ++ ['-'] ++ pad2 f.month ++ ['-'] ++ pad2 f.day ++ [' ']
      ++ pad2 f.hour ++ [':'] ++ pad2 f.minute ++ [':'] ++ pad2 f.second
      ++ (if f.micro ≠ 0 then ['.'] ++ pad6 f.micro else []) ++ [sqc]

/-- The per-argument rule that claim C3 literally asserts for
buildExecutionParams: the same per-type fragments as interpolateParams,
except that byte and text values drop (only) the surrounding quotes, so
the backslash escaping of the interpolation rule is kept. -/
def c3ClaimRule : Value → Option GoStr
  | Value.bytes v => some ("_binary".toList ++ escapeBytesBackslash v)
  | Value.str v => some (escapeStringBackslash v)
  | v => interpFragment v

/-- The per-argument rule buildExecutionParams actually follows (the
amended claim C3): the fragments of interpolateParams for nil, int64,
uint64, float64, bool and time.Time, and the verbatim value, with
neither quotes nor escaping nor the binary-literal prefix, for byte and
text values. -/
def c3AmendedRule : Value → GoStr
  | Value.bytes v => v
  | Value.str v => v
  | v => (interpFragment v).getD []

/-- The message text embedded in an error value returned by QueryContext
(empty for the named sentinel errors, which carry no dynamic text). -/
def errText : Err → GoStr
  | Err.remote (GoError.mk m) => m
  | Err.remote (GoError.httpResponse m rid) => m ++ rid
  | Err.fromReason r => r
  | Err.pseudoCommandNotExist q => q
  | Err.wgCreationDisabled n => n
  | Err.wgDisabled n => n
  | _ => []

/-- Whether a result page mentions the given identifier in some cell. -/
def pageMentions (qid : GoStr) (p : ResultPage) : Bool :=
  p.data.any (fun row => row.any (fun c =>
    match c with
    | some v => decide (List.IsInfix qid v)
    | none => false))

/-- Whether a rows value mentions the given identifier. -/
def rowsMentions (qid : GoStr) : Rows → Bool
  | Rows.fetched q => decide (List.IsInfix qid q)
  | Rows.page p => pageMentions qid p

/-- Whether the outcome of a QueryContext run makes the given identifier
discoverable to the caller: it occurs in the rows value, or in the text of
the returned error. -/
def qcMentions (qid : GoStr) : QCResult → Bool
  | QCResult.ok r => rowsMentions qid r
  | QCResult.err e => decide (List.IsInfix qid (errText e))
  | _ => false

/-- Whether a status response is a non-terminal observation
(Queued or Running, the default branch of the state switch). -/
def nonTerminal (s : StatusResp) : Prop :=
  s.state = QState.queued ∨ s.state = QState.running

/-- One pre-cancellation poll-loop iteration as hypothesised by claims C4
and C5: the poll observed a non-terminal state and the timer fired without
the timeout policy being exceeded, so the loop continued. -/
def preStep (ov : Option Nat) (p : Except GoError StatusResp) (e : Event) : Prop :=
  ∃ s el, p = Except.ok s ∧ nonTerminal s ∧ e = Event.timer el ∧
    isQueryTimeOut el s.statementType ov = false

/-- A baseline session configuration: not read-only, no cost accounting,
default workgroup, no service-limit override. -/
def cfgBase : Config := ⟨false, false, [], false, none⟩

/-- A baseline client script: workgroup enabled, submission succeeds with
identifier QID123, one successful poll, stop succeeds, no events. -/
def scrBase : ClientScript :=
  ⟨Except.ok WGState.enabled, none, (some "QID123".toList, none),
   [Except.ok ⟨QState.succeeded, none, StmtType.dml⟩], Except.ok (), []⟩

/-- The oversized string argument of the claim C1 counterexample: one
character more than ten times the configured maximum query length. -/
def bigArg : GoStr := List.replicate (10 * MAXQueryStringLength + 1) 'a'

/-- Script for a run whose submission returns an identifier together with
a plain (non-transport) error, like the FAILED_AFTER_GETQID scenario of
the test suite. -/
def scrStartFail : ClientScript :=
  ⟨Except.ok WGState.enabled, none,
   (some "FAILED_AFTER_GETQID_123".toList,
    some (GoError.mk "FAILED_AFTER_GETQID_FAILED".toList)),
   [], Except.ok (), []⟩

/-- Script for a run whose submission returns an identifier together with
a transport ResponseError carrying a service request identifier, like the
FAILED_AFTER_GETQID2 scenario of the test suite. -/
def scrStartFailHttp : ClientScript :=
  ⟨Except.ok WGState.enabled, none,
   (some "FAILED_AFTER_GETQID_123".toList,
    some (GoError.httpResponse "FAILED_AFTER_GETQID_FAILED".toList "REQID77".toList)),
   [], Except.ok (), []⟩

/-- Script for a run that observes one Queued poll and then the caller
cancellation fires. -/
def scrCancel : ClientScript :=
  ⟨Except.ok WGState.enabled, none, (some "QID123".toList, none),
   [Except.ok ⟨QState.queued, none, StmtType.dml⟩], Except.ok (),
   [Event.ctxDone CtxErr.canceled]⟩

/-- Script for a run that observes one Queued poll and then the timer
fires far past the timeout policy. -/
def scrTimeout : ClientScript :=
  ⟨Except.ok WGState.enabled, none, (some "QID123".toList, none),
   [Except.ok ⟨QState.queued, none, StmtType.ddl⟩], Except.ok (),
   [Event.timer 100000]⟩

/-- Script for a run whose first poll reports a Failed execution with an
absent (nil) StateChangeReason. -/
def scrFailedNoReason : ClientScript :=
  ⟨Except.ok WGState.enabled, none, (some "QID123".toList, none),
   [Except.ok ⟨QState.failed, none, StmtType.dml⟩], Except.ok (), []⟩

theorem mod100_div10 (n : Nat) : n % 100 / 10 % 10 = n / 10 % 10 := by omega

theorem mod100_mod10 (n : Nat) : n % 100 % 10 = n % 10 := by omega

theorem div100_div10 (n : Nat) : n / 100 / 10 % 10 = n / 1000 % 10 := by omega

theorem div10000_div10 (n : Nat) : n / 10000 / 10 % 10 = n / 100000 % 10 := by omega

theorem div100_mod100_div10 (n : Nat) : n / 100 % 100 / 10 % 10 = n / 1000 % 10 := by omega

theorem div100_mod100_mod10 (n : Nat) : n / 100 % 100 % 10 = n / 100 % 10 := by omega

/-- The table-pair rendering of the interpolation time branch equals the
zero-padded rendering required by the spec. -/
theorem interpTime_eq_specRender (t : GoTime) :
    interpTimeFragment t = specTimestampRender t := by
  simp only [interpTimeFragment, specTimestampRender]
  split
  · rfl
  · simp only [pad2, pad4, pad6, digits10, digits01, digitChar,
      mod100_div10, mod100_mod10, div100_div10, div10000_div10,
      div100_mod100_div10, div100_mod100_mod10]
    split <;>
      simp only [List.cons_append, List.nil_append, List.append_assoc]

theorem goDecompose_micro (u : GoTime) :
    (goDecompose u).micro = u % 1000000000 / 1000 := rfl

/-- The Format-based rendering of the execution-parameter time branch also
equals the zero-padded rendering required by the spec. -/
theorem buildTime_eq_specRender (t : GoTime) :
    buildTimeFragment t = specTimestampRender t := by
  simp only [buildTimeFragment, specTimestampRender, formatDateTime, goDecompose_micro]
  split
  · rfl
  · by_cases h : (t + 500) % 1000000000 / 1000 = 0
    · simp [h, List.append_assoc]
    · simp [h, List.append_assoc]

theorem interpTimeFragment_length (t : GoTime) : (interpTimeFragment t).length ≤ 28 := by
  simp only [interpTimeFragment]
  split
  · decide
  · split <;> simp

theorem interp_single_time (t : GoTime) :
    interpolateParams ['?'] [Value.time t] = (interpTimeFragment t, none) := by
  have hlen := interpTimeFragment_length t
  simp only [interpolateParams, interpLoop, splitAtQ, List.count_cons, List.count_nil,
    interpFragment, isNullV]
  norm_num
  intro h
  rw [MAXQueryStringLength] at h
  omega

/-- C6: for every time.Time argument, interpolation renders the zero-value
timestamp as the single-quoted sentinel 0000-00-00, and every non-zero
timestamp converted to UTC, rounded to the nearest microsecond by adding
500 nanoseconds before truncation, as a single-quoted zero-padded
YYYY-MM-DD HH:MM:SS with a six-digit .ffffff microsecond suffix appended
exactly when the microsecond part is non-zero (the rendering rule captured
by specTimestampRender): the fragment the interpolateParams type switch
appends, and a full interpolateParams call on one timestamp placeholder,
both produce exactly that rendering. -/
theorem timestamp_rendering_matches_spec :
    ∀ t : GoTime, interpTimeFragment t = specTimestampRender t ∧
      interpolateParams ['?'] [Value.time t] = (specTimestampRender t, none) :=
  fun t => ⟨interpTime_eq_specRender t,
    (interpTime_eq_specRender t) ▸ interp_single_time t⟩

theorem buildFragment_eq_amended (v : Value) (h : isSupported v = true) :
    buildFragment v = some (c3AmendedRule v) := by
  cases v <;>
    simp_all [buildFragment, c3AmendedRule, interpFragment, isSupported]
  exact (buildTime_eq_specRender _).trans (interpTime_eq_specRender _).symm

theorem buildLoop_all_supported : ∀ args acc, args.all isSupported = true →
    buildLoop args acc = (acc ++ args.map c3AmendedRule, none) := by
  intro args
  induction args with
  | nil => intro acc _; simp [buildLoop]
  | cons a as ih =>
    intro acc h
    simp only [List.all_cons, Bool.and_eq_true] at h
    simp only [buildLoop, buildFragment_eq_amended a h.1]
    rw [ih _ h.2]
    simp

theorem buildLoop_first_unsupported : ∀ pre post acc, pre.all isSupported = true →
    buildLoop (pre ++ Value.other :: post) acc = ([], some Err.unknownType) := by
  intro pre
  induction pre with
  | nil => intro post acc _; simp [buildLoop, buildFragment]
  | cons a as ih =>
    intro post acc h
    simp only [List.all_cons, Bool.and_eq_true] at h
    rw [List.cons_append]
    simp only [buildLoop, buildFragment_eq_amended a h.1]
    exact ih post _ h.2

/-- C3 (amended): buildExecutionParams follows the same per-type rules as
interpolateParams for nil, int64, uint64, float64, bool and time.Time
arguments (c3AmendedRule delegates those cases to interpFragment), while
byte and text values are emitted verbatim, with neither the surrounding
quotes, nor the backslash escaping, nor the binary-literal prefix; the
first argument of unsupported type aborts with ErrQueryUnknownType. -/
theorem buildExecutionParams_amended_rules :
    (∀ args, args.all isSupported = true →
        buildExecutionParams args = (args.map c3AmendedRule, none))
    ∧ (∀ pre post, pre.all isSupported = true →
        buildExecutionParams (pre ++ Value.other :: post) = ([], some Err.unknownType)) := by
  constructor
  · intro args h
    cases args with
    | nil => simp [buildExecutionParams]
    | cons a as =>
      simp only [buildExecutionParams, List.isEmpty_cons, Bool.false_eq_true, if_false]
      rw [buildLoop_all_supported _ _ h]
      simp
  · intro pre post h
    have hne : (pre ++ Value.other :: post).isEmpty = false := by
      cases pre <;> simp
    simp only [buildExecutionParams, hne, Bool.false_eq_true, if_false]
    exact buildLoop_first_unsupported pre post [] h

theorem buildExecutionParams_amended_rules_witness :
    buildExecutionParams
        [Value.null, Value.int (-7), Value.str "ab".toList, Value.time 0]
      = ([Value.null, Value.int (-7), Value.str "ab".toList, Value.time 0].map c3AmendedRule,
         none)
    ∧ buildExecutionParams [Value.bool true, Value.other] = ([], some Err.unknownType) :=
  ⟨buildExecutionParams_amended_rules.1 _ (by decide),
   buildExecutionParams_amended_rules.2 [Value.bool true] [] (by decide)⟩

/-- Counterexample to C3 as stated: a text value containing a backslash is
emitted verbatim by buildExecutionParams, not backslash-escaped as the
interpolation text rule minus its surrounding quotes (c3ClaimRule) would
require. -/
theorem buildExecutionParams_text_not_escaped :
    buildExecutionParams [Value.str ['a', bsc, 'b']] = ([['a', bsc, 'b']], none)
    ∧ c3ClaimRule (Value.str ['a', bsc, 'b']) = some ['a', bsc, bsc, 'b']
    ∧ (['a', bsc, 'b'] : GoStr) ≠ ['a', bsc, bsc, 'b'] := by
  refine ⟨by decide, by decide, by decide⟩

theorem interpLoop_step_none {rest : GoStr} (h : splitAtQ rest = none)
    (args : List Value) (buf : GoStr) :
    interpLoop args rest buf = (buf ++ rest, none) := by
  rw [interpLoop, h]

theorem interpLoop_step_panic {rest bef aft : GoStr} (h : splitAtQ rest = some (bef, aft))
    (buf : GoStr) :
    interpLoop [] rest buf = ([], some Err.outOfRangePanic) := by
  rw [interpLoop, h]

theorem interpLoop_step_null {rest bef aft : GoStr} (h : splitAtQ rest = some (bef, aft))
    (a : Value) (as : List Value) (buf : GoStr) (hn : isNullV a = true) :
    interpLoop (a :: as) rest buf = interpLoop as aft (buf ++ bef ++ "NULL".toList) := by
  rw [interpLoop, h]
  simp [hn]

theorem interpLoop_step_unknown {rest bef aft : GoStr} (h : splitAtQ rest = some (bef, aft))
    (a : Value) (as : List Value) (buf : GoStr)
    (hn : isNullV a = false) (hf : interpFragment a = none) :
    interpLoop (a :: as) rest buf = ([], some Err.unknownType) := by
  rw [interpLoop, h]
  simp [hn, hf]

theorem interpLoop_step_frag {rest bef aft : GoStr} (h : splitAtQ rest = some (bef, aft))
    (a : Value) (as : List Value) (buf frag : GoStr)
    (hn : isNullV a = false) (hf : interpFragment a = some frag) :
    interpLoop (a :: as) rest buf =
      (if 10 * MAXQueryStringLength < (buf ++ bef ++ frag).length + 4 then
        ([], some Err.bufferOF)
      else interpLoop as aft (buf ++ bef ++ frag)) := by
  rw [interpLoop, h]
  simp [hn, hf]

theorem splitAtQ_length : ∀ rest before after : GoStr,
    splitAtQ rest = some (before, after) →
    rest.length = before.length + 1 + after.length := by
  intro rest
  induction rest with
  | nil => intro before after h; simp [splitAtQ] at h
  | cons c cs ih =>
    intro before after h
    simp only [splitAtQ] at h
    by_cases hc : c = '?'
    · rw [if_pos hc] at h
      simp only [Option.some.injEq, Prod.mk.injEq] at h
      rw [← h.1, ← h.2]
      simp only [List.length_cons, List.length_nil]
      omega
    · rw [if_neg hc] at h
      cases hsp : splitAtQ cs with
      | none => rw [hsp] at h; simp at h
      | some p =>
        obtain ⟨bef, aft⟩ := p
        rw [hsp] at h
        simp at h
        have hp := ih bef aft hsp
        rw [← h.1, ← h.2]
        simp only [List.length_cons]
        omega

theorem interpLoop_bound : ∀ (args : List Value) (rest buf s : GoStr),
    interpLoop args rest buf = (s, none) →
    s.length ≤ max buf.length (10 * MAXQueryStringLength - 4)
      + rest.length + 4 * args.countP isNullV := by
  intro args
  induction args with
  | nil =>
    intro rest buf s h
    cases hsp : splitAtQ rest with
    | none =>
      rw [interpLoop_step_none hsp] at h
      simp only [Prod.mk.injEq] at h
      have : s.length = buf.length + rest.length := by rw [← h.1]; simp
      simp only [List.countP_nil]
      omega
    | some p =>
      obtain ⟨bef, aft⟩ := p
      rw [interpLoop_step_panic hsp] at h
      simp at h
  | cons a as ih =>
    intro rest buf s h
    cases hsp : splitAtQ rest with
    | none =>
      rw [interpLoop_step_none hsp] at h
      simp only [Prod.mk.injEq] at h
      have : s.length = buf.length + rest.length := by rw [← h.1]; simp
      omega
    | some p =>
      obtain ⟨bef, aft⟩ := p
      have hrest := splitAtQ_length rest bef aft hsp
      by_cases hn : isNullV a
      · rw [interpLoop_step_null hsp a as buf hn] at h
        have hih := ih aft (buf ++ bef ++ "NULL".toList) s h
        have h4 : ("NULL".toList : GoStr).length = 4 := rfl
        simp only [List.length_append, h4] at hih
        simp only [List.countP_cons, hn, if_pos, if_true]
        omega
      · cases hf : interpFragment a with
        | none =>
          rw [interpLoop_step_unknown hsp a as buf (by simp [hn]) hf] at h
          simp at h
        | some frag =>
          rw [interpLoop_step_frag hsp a as buf frag (by simp [hn]) hf] at h
          by_cases hg : 10 * MAXQueryStringLength < (buf ++ bef ++ frag).length + 4
          · rw [if_pos hg] at h; simp at h
          · rw [if_neg hg] at h
            have hih := ih aft (buf ++ bef ++ frag) s h
            simp only [List.length_append] at hih hg
            simp only [List.countP_cons]
            have hn2 : (if isNullV a = true then 1 else 0) = 0 := by
              simp [hn]
            rw [hn2]
            omega

/-- C1 (amended): only interpolateParams guards against growth: after each
non-nil argument substitution the buffer is checked and the call fails
with ErrQueryBufferOF when the buffer length plus 4 would exceed 10 times
MAXQueryStringLength, so every successfully returned string is bounded by
10 * MAXQueryStringLength - 4 plus the query length (the text after the
last placeholder is appended unchecked) plus 4 bytes per nil argument
(NULL substitutions skip the guard).  buildExecutionParams has no such
guard (see the counterexample). -/
theorem interpolateParams_growth_guard :
    ∀ (query : GoStr) (args : List Value) (s : GoStr),
      interpolateParams query args = (s, none) →
      s.length ≤ 10 * MAXQueryStringLength - 4 + query.length
        + 4 * args.countP isNullV := by
  intro query args s h
  simp only [interpolateParams] at h
  by_cases hc : query.count '?' ≠ args.length
  · rw [if_pos hc] at h; simp at h
  · rw [if_neg hc] at h
    have hb := interpLoop_bound args query [] s h
    simp only [List.length_nil, Nat.max_eq_right (Nat.zero_le _)] at hb
    omega

theorem interpolateParams_growth_guard_witness :
    interpolateParams ['?'] [Value.int 5] = (['5'], none)
    ∧ (['5'] : GoStr).length ≤ 10 * MAXQueryStringLength - 4 + (['?'] : GoStr).length
        + 4 * ([Value.int 5].countP isNullV) :=
  ⟨by decide, interpolateParams_growth_guard ['?'] [Value.int 5] ['5'] (by decide)⟩

theorem buildExecutionParams_single_str (s : GoStr) :
    buildExecutionParams [Value.str s] = ([s], none) := by
  simp [buildExecutionParams, buildLoop, buildFragment]

/-- Counterexample to C1 as stated: buildExecutionParams applies no
buffer-overflow guard at all; on a single text argument one character
longer than 10 * MAXQueryStringLength it succeeds (no ErrQueryBufferOF)
and returns a string exceeding that bound. -/
theorem buildExecutionParams_no_growth_guard :
    buildExecutionParams [Value.str bigArg] = ([bigArg], none)
    ∧ 10 * MAXQueryStringLength < bigArg.length := by
  refine ⟨buildExecutionParams_single_str bigArg, ?_⟩
  simp [bigArg]

theorem queryContext_to_afterWG (cfg : Config) (script : ClientScript)
    (query q : GoStr) (pc : Option PC)
    (hparse : parsePseudo query = Sum.inl (pc, q))
    (hro : (cfg.readOnly && !isReadOnlyStatement q) = false)
    (hval : isQueryValid q = true)
    (hwg : cfg.wgName = []) :
    QueryContext cfg script query [] = afterWG pc cfg script q q [] := by
  simp [QueryContext, hparse, hro, hval, wgResolve, hwg]

/-- C7: for every read-only session and every query that, after
pseudo-command prefix stripping, is not classified read-only by the
case-insensitive keyword-prefix inspection, QueryContext fails immediately
with the write-violation error and performs no remote call of any kind
(the transcript is empty). -/
theorem queryContext_readonly_write_violation :
    ∀ (cfg : Config) (script : ClientScript) (query : GoStr) (args : List Value)
      (pc : Option PC) (q : GoStr),
      parsePseudo query = Sum.inl (pc, q) →
      cfg.readOnly = true →
      isReadOnlyStatement q = false →
      QueryContext cfg script query args = (QCResult.err Err.writeViolation, []) := by
  intro cfg script query args pc q hparse hro hq
  simp [QueryContext, hparse, hro, hq]

theorem queryContext_readonly_write_violation_witness :
    QueryContext ⟨true, false, [], false, none⟩ scrBase
      "CREATE TABLE t AS SELECT 1".toList [] = (QCResult.err Err.writeViolation, []) :=
  queryContext_readonly_write_violation ⟨true, false, [], false, none⟩ scrBase
    "CREATE TABLE t AS SELECT 1".toList [] none "CREATE TABLE t AS SELECT 1".toList
    (by decide) rfl (by decide)

/-- C8: a placeholder/argument count mismatch makes interpolateParams fail
with ErrInvalidQuery and produce the empty string; through QueryContext
(which interpolates whenever the argument list is non-empty, before any
remote stage) the same mismatch yields ErrInvalidQuery with an empty
remote-call transcript. -/
theorem interpolateParams_mismatch_rejected :
    (∀ (query : GoStr) (args : List Value), query.count '?' ≠ args.length →
       interpolateParams query args = ([], some Err.invalidQuery))
    ∧ (∀ (cfg : Config) (script : ClientScript) (query q : GoStr)
         (args : List Value) (pc : Option PC),
        parsePseudo query = Sum.inl (pc, q) →
        (cfg.readOnly && !isReadOnlyStatement q) = false →
        args ≠ [] →
        q.count '?' ≠ args.length →
        QueryContext cfg script query args = (QCResult.err Err.invalidQuery, [])) := by
  constructor
  · intro query args h
    simp [interpolateParams, h]
  · intro cfg script query q args pc hparse hro hargs hcount
    have hne : args.isEmpty = false := by cases args <;> simp_all
    simp [QueryContext, hparse, hro, hne, interpolateParams, hcount]

theorem interpolateParams_mismatch_rejected_witness :
    interpolateParams "SELECT ?".toList [] = ([], some Err.invalidQuery)
    ∧ QueryContext cfgBase scrBase "SELECT ?".toList [Value.int 1, Value.int 2]
        = (QCResult.err Err.invalidQuery, []) :=
  ⟨interpolateParams_mismatch_rejected.1 "SELECT ?".toList [] (by decide),
   interpolateParams_mismatch_rejected.2 cfgBase scrBase "SELECT ?".toList
     "SELECT ?".toList [Value.int 1, Value.int 2] none
     (by decide) (by decide) (by decide) (by decide)⟩

/-- C2 (amended): when the remote start-execution call returns an
identifier together with an error, QueryContext discards the identifier
and fails with that error as-is, with a nil rows value: the identifier is
not discoverable from the failed call result.  Only under the
get-execution-id pseudo-command, and only for a transport ResponseError,
does the call instead succeed with a single-row page carrying the
service-assigned request identifier (not the execution identifier). -/
theorem queryContext_start_error_surfaced :
    (∀ (cfg : Config) (script : ClientScript) (query q : GoStr)
       (oqid : Option GoStr) (e : GoError),
      parsePseudo query = Sum.inl (none, q) →
      (cfg.readOnly && !isReadOnlyStatement q) = false →
      isQueryValid q = true →
      cfg.wgName = [] →
      IsQID q = false →
      script.startRes = (oqid, some e) →
      QueryContext cfg script query [] =
        (QCResult.err (Err.remote e), [RemoteCall.startCall q]))
    ∧ (∀ (cfg : Config) (script : ClientScript) (query q : GoStr)
         (oqid : Option GoStr) (m rid : GoStr),
      parsePseudo query = Sum.inl (some PC.getQID, q) →
      (cfg.readOnly && !isReadOnlyStatement q) = false →
      isQueryValid q = true →
      cfg.wgName = [] →
      IsQID q = false →
      script.startRes = (oqid, some (GoError.httpResponse m rid)) →
      QueryContext cfg script query [] =
        (QCResult.ok (getHeaderlessSingleRowResultPage rid), [RemoteCall.startCall q])) := by
  constructor
  · intro cfg script query q oqid e hparse hro hval hwg hqid hstart
    rw [queryContext_to_afterWG cfg script query q none hparse hro hval hwg]
    simp [afterWG, hqid, buildExecutionParams, hstart]
  · intro cfg script query q oqid m rid hparse hro hval hwg hqid hstart
    rw [queryContext_to_afterWG cfg script query q (some PC.getQID) hparse hro hval hwg]
    simp [afterWG, hqid, buildExecutionParams, hstart]

theorem queryContext_start_error_surfaced_witness :
    QueryContext cfgBase scrStartFail "FAILED_AFTER_GETQID".toList [] =
      (QCResult.err (Err.remote (GoError.mk "FAILED_AFTER_GETQID_FAILED".toList)),
       [RemoteCall.startCall "FAILED_AFTER_GETQID".toList])
    ∧ QueryContext cfgBase scrStartFailHttp "pc:get_query_id SELECT 1".toList [] =
      (QCResult.ok (getHeaderlessSingleRowResultPage "REQID77".toList),
       [RemoteCall.startCall "SELECT 1".toList]) :=
  ⟨queryContext_start_error_surfaced.1 cfgBase scrStartFail
     "FAILED_AFTER_GETQID".toList "FAILED_AFTER_GETQID".toList
     (some "FAILED_AFTER_GETQID_123".toList)
     (GoError.mk "FAILED_AFTER_GETQID_FAILED".toList)
     (by decide) (by decide) (by decide) (by decide) (by decide) (by decide),
   queryContext_start_error_surfaced.2 cfgBase scrStartFailHttp
     "pc:get_query_id SELECT 1".toList "SELECT 1".toList
     (some "FAILED_AFTER_GETQID_123".toList)
     "FAILED_AFTER_GETQID_FAILED".toList "REQID77".toList
     (by decide) (by decide) (by decide) (by decide) (by decide) (by decide)⟩

/-- Counterexample to C2 as stated: in the FAILED_AFTER_GETQID scenario
the submission returns identifier FAILED_AFTER_GETQID_123 together with an
error; the call as a whole fails with that error, but the identifier is
discarded: it appears neither in a rows value nor in the text of the
returned error, so it is not discoverable from the failed call result. -/
theorem queryContext_start_error_id_lost :
    QueryContext cfgBase scrStartFail "FAILED_AFTER_GETQID".toList []
      = (QCResult.err (Err.remote (GoError.mk "FAILED_AFTER_GETQID_FAILED".toList)),
         [RemoteCall.startCall "FAILED_AFTER_GETQID".toList])
    ∧ qcMentions "FAILED_AFTER_GETQID_123".toList
        (QueryContext cfgBase scrStartFail "FAILED_AFTER_GETQID".toList []).1 = false := by
  constructor
  · decide
  · decide

/-- C9 (amended): under the get-execution-id pseudo-command, a successful
submission short-circuits into a single-row, single-column page whose
value is the execution identifier, with no polling (the transcript holds
only the StartQueryExecution call, no GetQueryExecution); a submission
failure yields the page carrying the service-assigned request identifier
only when the error is a transport ResponseError, while any other
submission failure is returned as an error with no page. -/
theorem queryContext_get_qid_short_circuit :
    (∀ (cfg : Config) (script : ClientScript) (query q : GoStr) (qid : GoStr),
      parsePseudo query = Sum.inl (some PC.getQID, q) →
      (cfg.readOnly && !isReadOnlyStatement q) = false →
      isQueryValid q = true →
      cfg.wgName = [] →
      IsQID q = false →
      script.startRes = (some qid, none) →
      QueryContext cfg script query [] =
        (QCResult.ok (getHeaderlessSingleRowResultPage qid), [RemoteCall.startCall q]))
    ∧ (∀ (cfg : Config) (script : ClientScript) (query q : GoStr)
         (oqid : Option GoStr) (m rid : GoStr),
      parsePseudo query = Sum.inl (some PC.getQID, q) →
      (cfg.readOnly && !isReadOnlyStatement q) = false →
      isQueryValid q = true →
      cfg.wgName = [] →
      IsQID q = false →
      script.startRes = (oqid, some (GoError.httpResponse m rid)) →
      QueryContext cfg script query [] =
        (QCResult.ok (getHeaderlessSingleRowResultPage rid), [RemoteCall.startCall q]))
    ∧ (∀ (cfg : Config) (script : ClientScript) (query q : GoStr)
         (oqid : Option GoStr) (m : GoStr),
      parsePseudo query = Sum.inl (some PC.getQID, q) →
      (cfg.readOnly && !isReadOnlyStatement q) = false →
      isQueryValid q = true →
      cfg.wgName = [] →
      IsQID q = false →
      script.startRes = (oqid, some (GoError.mk m)) →
      QueryContext cfg script query [] =
        (QCResult.err (Err.remote (GoError.mk m)), [RemoteCall.startCall q])) := by
  refine ⟨?_, ?_, ?_⟩
  · intro cfg script query q qid hparse hro hval hwg hqid hstart
    rw [queryContext_to_afterWG cfg script query q (some PC.getQID) hparse hro hval hwg]
    simp [afterWG, hqid, buildExecutionParams, hstart]
  · intro cfg script query q oqid m rid hparse hro hval hwg hqid hstart
    rw [queryContext_to_afterWG cfg script query q (some PC.getQID) hparse hro hval hwg]
    simp [afterWG, hqid, buildExecutionParams, hstart]
  · intro cfg script query q oqid m hparse hro hval hwg hqid hstart
    rw [queryContext_to_afterWG cfg script query q (some PC.getQID) hparse hro hval hwg]
    simp [afterWG, hqid, buildExecutionParams, hstart]

theorem queryContext_get_qid_short_circuit_witness :
    QueryContext cfgBase scrBase "pc:get_query_id SELECT 1".toList [] =
      (QCResult.ok (getHeaderlessSingleRowResultPage "QID123".toList),
       [RemoteCall.startCall "SELECT 1".toList])
    ∧ QueryContext cfgBase scrStartFailHttp "pc:get_query_id SELECT 1".toList [] =
      (QCResult.ok (getHeaderlessSingleRowResultPage "REQID77".toList),
       [RemoteCall.startCall "SELECT 1".toList]) :=
  ⟨queryContext_get_qid_short_circuit.1 cfgBase scrBase
     "pc:get_query_id SELECT 1".toList "SELECT 1".toList "QID123".toList
     (by decide) (by decide) (by decide) (by decide) (by decide) (by decide),
   queryContext_get_qid_short_circuit.2.1 cfgBase scrStartFailHttp
     "pc:get_query_id SELECT 1".toList "SELECT 1".toList
     (some "FAILED_AFTER_GETQID_123".toList)
     "FAILED_AFTER_GETQID_FAILED".toList "REQID77".toList
     (by decide) (by decide) (by decide) (by decide) (by decide) (by decide)⟩

/-- Counterexample to C9 as stated: under the get-execution-id
pseudo-command a submission failure whose error is not a transport
ResponseError produces no single-row request-identifier page: the call
returns the error itself. -/
theorem queryContext_get_qid_plain_error_no_page :
    QueryContext cfgBase scrStartFail "pc:get_query_id FAILED_AFTER_GETQID".toList []
      = (QCResult.err (Err.remote (GoError.mk "FAILED_AFTER_GETQID_FAILED".toList)),
         [RemoteCall.startCall "FAILED_AFTER_GETQID".toList]) := by
  decide

theorem pollLoop_nonterminal_ctxDone (qid : GoStr) (mw : Bool)
    (stopRes : Except GoError Unit) (ov : Option Nat) (s : StatusResp)
    (restP : List (Except GoError StatusResp)) (ce : CtxErr) (restE : List Event)
    (hs : nonTerminal s) :
    pollLoop qid mw stopRes ov (Except.ok s :: restP) (Event.ctxDone ce :: restE) =
      (match stopRes with
       | Except.error e => (LoopOut.errOut (Err.remote e),
           [RemoteCall.getExecCall qid, RemoteCall.stopCall qid])
       | Except.ok _ => (LoopOut.errOut (Err.ctxError ce),
           [RemoteCall.getExecCall qid, RemoteCall.stopCall qid]
             ++ if mw then [RemoteCall.getExecCall qid] else [])) := by
  obtain ⟨st, r, stt⟩ := s
  simp only [nonTerminal] at hs
  rcases hs with h | h <;> subst h <;> cases stopRes <;> simp [pollLoop]

theorem pollLoop_nonterminal_timer_timeout (qid : GoStr) (mw : Bool)
    (stopRes : Except GoError Unit) (ov : Option Nat) (s : StatusResp)
    (restP : List (Except GoError StatusResp)) (el : Nat) (restE : List Event)
    (hs : nonTerminal s)
    (hto : isQueryTimeOut el s.statementType ov = true) :
    pollLoop qid mw stopRes ov (Except.ok s :: restP) (Event.timer el :: restE) =
      (LoopOut.errOut Err.queryTimeout, [RemoteCall.getExecCall qid]) := by
  obtain ⟨st, r, stt⟩ := s
  simp only [nonTerminal] at hs
  simp only at hto
  rcases hs with h | h <;> subst h <;> simp [pollLoop, hto]

theorem pollLoop_nonterminal_timer_continue (qid : GoStr) (mw : Bool)
    (stopRes : Except GoError Unit) (ov : Option Nat) (s : StatusResp)
    (restP : List (Except GoError StatusResp)) (el : Nat) (restE : List Event)
    (hs : nonTerminal s)
    (hto : isQueryTimeOut el s.statementType ov = false) :
    pollLoop qid mw stopRes ov (Except.ok s :: restP) (Event.timer el :: restE) =
      ((pollLoop qid mw stopRes ov restP restE).1,
       RemoteCall.getExecCall qid :: (pollLoop qid mw stopRes ov restP restE).2) := by
  obtain ⟨st, r, stt⟩ := s
  simp only [nonTerminal] at hs
  simp only at hto
  rcases hs with h | h <;> subst h <;> simp [pollLoop, hto]

theorem pollLoop_cancel_run :
    ∀ (ppre : List (Except GoError StatusResp)) (pre : List Event)
      (qid : GoStr) (mw : Bool) (stopRes : Except GoError Unit) (ov : Option Nat)
      (s : StatusResp) (ce : CtxErr)
      (restP : List (Except GoError StatusResp)) (restE : List Event),
      List.Forall₂ (preStep ov) ppre pre →
      nonTerminal s →
      (pollLoop qid mw stopRes ov (ppre ++ Except.ok s :: restP)
          (pre ++ Event.ctxDone ce :: restE)).1
        = (match stopRes with
           | Except.ok _ => LoopOut.errOut (Err.ctxError ce)
           | Except.error e => LoopOut.errOut (Err.remote e))
      ∧ (pollLoop qid mw stopRes ov (ppre ++ Except.ok s :: restP)
          (pre ++ Event.ctxDone ce :: restE)).2.count (RemoteCall.stopCall qid) = 1 := by
  intro ppre pre qid mw stopRes ov s ce restP restE hall hs
  induction hall with
  | nil =>
    rw [List.nil_append, List.nil_append,
      pollLoop_nonterminal_ctxDone qid mw stopRes ov s restP ce restE hs]
    cases stopRes with
    | error e => simp
    | ok u => cases mw <;> simp
  | @cons p e ppre2 pre2 hstep htail ih =>
    obtain ⟨s2, el, hp, hs2, he, hto⟩ := hstep
    subst hp; subst he
    rw [List.cons_append, List.cons_append,
      pollLoop_nonterminal_timer_continue qid mw stopRes ov s2 _ el _ hs2 hto]
    refine ⟨ih.1, ?_⟩
    simp [List.count_cons]
    exact ih.2

theorem pollLoop_timeout_run :
    ∀ (ppre : List (Except GoError StatusResp)) (pre : List Event)
      (qid : GoStr) (mw : Bool) (stopRes : Except GoError Unit) (ov : Option Nat)
      (s : StatusResp) (el : Nat)
      (restP : List (Except GoError StatusResp)) (restE : List Event),
      List.Forall₂ (preStep ov) ppre pre →
      nonTerminal s →
      isQueryTimeOut el s.statementType ov = true →
      pollLoop qid mw stopRes ov (ppre ++ Except.ok s :: restP)
          (pre ++ Event.timer el :: restE)
        = (LoopOut.errOut Err.queryTimeout,
           ppre.map (fun _ => RemoteCall.getExecCall qid) ++ [RemoteCall.getExecCall qid]) := by
  intro ppre pre qid mw stopRes ov s el restP restE hall hs hto
  induction hall with
  | nil =>
    rw [List.nil_append, List.nil_append,
      pollLoop_nonterminal_timer_timeout qid mw stopRes ov s restP el restE hs hto]
    simp
  | @cons p e ppre2 pre2 hstep htail ih =>
    obtain ⟨s2, el2, hp, hs2, he, hto2⟩ := hstep
    subst hp; subst he
    rw [List.cons_append, List.cons_append,
      pollLoop_nonterminal_timer_continue qid mw stopRes ov s2 _ el2 _ hs2 hto2, ih]
    simp

theorem queryContext_plain_to_loop (cfg : Config) (script : ClientScript)
    (query q qid : GoStr)
    (hparse : parsePseudo query = Sum.inl (none, q))
    (hro : (cfg.readOnly && !isReadOnlyStatement q) = false)
    (hval : isQueryValid q = true)
    (hwg : cfg.wgName = [])
    (hqid : IsQID q = false)
    (hstart : script.startRes = (some qid, none)) :
    QueryContext cfg script query [] =
      (mapLoopOut qid (pollLoop qid cfg.moneyWise script.stopRes
         cfg.serviceLimitOverride script.statusPolls script.events).1,
       RemoteCall.startCall q :: (pollLoop qid cfg.moneyWise script.stopRes
         cfg.serviceLimitOverride script.statusPolls script.events).2) := by
  rw [queryContext_to_afterWG cfg script query q none hparse hro hval hwg]
  simp [afterWG, hqid, buildExecutionParams, hstart]

/-- C4: when the caller cancellation signal fires while the poll loop has
observed only non-terminal states (each earlier iteration a timer event
below the timeout policy), QueryContext issues exactly one remote
StopQueryExecution call for the execution identifier, and returns the
caller cancellation reason ctx.Err() if the stop call succeeds, or the
stop call error if it fails. -/
theorem queryContext_cancellation_single_stop :
    ∀ (cfg : Config) (script : ClientScript) (query q qid : GoStr)
      (ppre : List (Except GoError StatusResp)) (pre : List Event)
      (s : StatusResp) (ce : CtxErr)
      (restP : List (Except GoError StatusResp)) (restE : List Event),
      parsePseudo query = Sum.inl (none, q) →
      (cfg.readOnly && !isReadOnlyStatement q) = false →
      isQueryValid q = true →
      cfg.wgName = [] →
      IsQID q = false →
      script.startRes = (some qid, none) →
      script.statusPolls = ppre ++ Except.ok s :: restP →
      script.events = pre ++ Event.ctxDone ce :: restE →
      List.Forall₂ (preStep cfg.serviceLimitOverride) ppre pre →
      nonTerminal s →
      (QueryContext cfg script query []).1 =
        (match script.stopRes with
         | Except.ok _ => QCResult.err (Err.ctxError ce)
         | Except.error e => QCResult.err (Err.remote e))
      ∧ (QueryContext cfg script query []).2.count (RemoteCall.stopCall qid) = 1 := by
  intro cfg script query q qid ppre pre s ce restP restE
    hparse hro hval hwg hqid hstart hpolls hevents hall hs
  rw [queryContext_plain_to_loop cfg script query q qid hparse hro hval hwg hqid hstart,
    hpolls, hevents]
  have h := pollLoop_cancel_run ppre pre qid cfg.moneyWise script.stopRes
    cfg.serviceLimitOverride s ce restP restE hall hs
  constructor
  · rw [h.1]
    cases script.stopRes <;> simp [mapLoopOut]
  · simp only [List.count_cons]
    rw [h.2]
    simp

theorem queryContext_cancellation_single_stop_witness :
    (QueryContext cfgBase scrCancel "SELECT 1".toList []).1 =
      QCResult.err (Err.ctxError CtxErr.canceled)
    ∧ (QueryContext cfgBase scrCancel "SELECT 1".toList []).2.count
        (RemoteCall.stopCall "QID123".toList) = 1 := by
  have h := queryContext_cancellation_single_stop cfgBase scrCancel
    "SELECT 1".toList "SELECT 1".toList "QID123".toList
    [] [] ⟨QState.queued, none, StmtType.dml⟩ CtxErr.canceled [] []
    (by decide) (by decide) (by decide) (by decide) (by decide) rfl
    rfl rfl List.Forall₂.nil (Or.inl rfl)
  exact ⟨h.1, h.2⟩

theorem countP_stop_map_getExec (l : List (Except GoError StatusResp)) (qid : GoStr) :
    (l.map (fun _ => RemoteCall.getExecCall qid)).countP isStopCall = 0 := by
  induction l with
  | nil => simp
  | cons a as ih => simp [List.countP_cons, isStopCall, ih]

/-- C5: when, on a poll iteration that observed a non-terminal state, the
timer fires with the elapsed wall-clock time exceeding the timeout policy
(isQueryTimeOut, keyed by the statement type of the current status
response and the optional service-limit override), QueryContext stops
polling and returns ErrQueryTimeout, and the whole run issues no remote
StopQueryExecution call (the transcript holds the submission and one
GetQueryExecution per iteration, nothing else). -/
theorem queryContext_timeout_no_stop :
    ∀ (cfg : Config) (script : ClientScript) (query q qid : GoStr)
      (ppre : List (Except GoError StatusResp)) (pre : List Event)
      (s : StatusResp) (el : Nat)
      (restP : List (Except GoError StatusResp)) (restE : List Event),
      parsePseudo query = Sum.inl (none, q) →
      (cfg.readOnly && !isReadOnlyStatement q) = false →
      isQueryValid q = true →
      cfg.wgName = [] →
      IsQID q = false →
      script.startRes = (some qid, none) →
      script.statusPolls = ppre ++ Except.ok s :: restP →
      script.events = pre ++ Event.timer el :: restE →
      List.Forall₂ (preStep cfg.serviceLimitOverride) ppre pre →
      nonTerminal s →
      isQueryTimeOut el s.statementType cfg.serviceLimitOverride = true →
      (QueryContext cfg script query []).1 = QCResult.err Err.queryTimeout
      ∧ (QueryContext cfg script query []).2.countP isStopCall = 0 := by
  intro cfg script query q qid ppre pre s el restP restE
    hparse hro hval hwg hqid hstart hpolls hevents hall hs hto
  rw [queryContext_plain_to_loop cfg script query q qid hparse hro hval hwg hqid hstart,
    hpolls, hevents,
    pollLoop_timeout_run ppre pre qid cfg.moneyWise script.stopRes
      cfg.serviceLimitOverride s el restP restE hall hs hto]
  refine ⟨rfl, ?_⟩
  simp [List.countP_cons, List.countP_append, isStopCall, countP_stop_map_getExec]

theorem queryContext_timeout_no_stop_witness :
    (QueryContext cfgBase scrTimeout "SELECT 1".toList []).1 =
      QCResult.err Err.queryTimeout
    ∧ (QueryContext cfgBase scrTimeout "SELECT 1".toList []).2.countP isStopCall = 0 := by
  have h := queryContext_timeout_no_stop cfgBase scrTimeout
    "SELECT 1".toList "SELECT 1".toList "QID123".toList
    [] [] ⟨QState.queued, none, StmtType.ddl⟩ 100000 [] []
    (by decide) (by decide) (by decide) (by decide) (by decide) rfl
    rfl rfl List.Forall₂.nil (Or.inl rfl) (by decide)
  exact ⟨h.1, h.2⟩

/-- C10: on observing a Failed state the poll loop of QueryContext
unconditionally dereferences the nullable StateChangeReason pointer: a
Failed status carrying a reason makes the call return that reason as its
error, while a Failed status with an absent reason makes the run fault (a
nil-pointer dereference panic) instead of returning an error; through
QueryContext the fault surfaces on the first such poll.  The branch is
therefore safe exactly under the precondition that every Failed status
carries a non-null reason. -/
theorem pollLoop_failed_reason_deref :
    (∀ (qid : GoStr) (mw : Bool) (stopRes : Except GoError Unit) (ov : Option Nat)
       (ps : List (Except GoError StatusResp)) (evs : List Event) (stt : StmtType),
      pollLoop qid mw stopRes ov (Except.ok ⟨QState.failed, none, stt⟩ :: ps) evs
        = (LoopOut.fault, [RemoteCall.getExecCall qid]))
    ∧ (∀ (qid : GoStr) (mw : Bool) (stopRes : Except GoError Unit) (ov : Option Nat)
         (ps : List (Except GoError StatusResp)) (evs : List Event) (stt : StmtType)
         (r : GoStr),
      pollLoop qid mw stopRes ov (Except.ok ⟨QState.failed, some r, stt⟩ :: ps) evs
        = (LoopOut.errOut (Err.fromReason r), [RemoteCall.getExecCall qid]))
    ∧ (∀ (cfg : Config) (script : ClientScript) (query q qid : GoStr)
         (stt : StmtType) (restP : List (Except GoError StatusResp)),
      parsePseudo query = Sum.inl (none, q) →
      (cfg.readOnly && !isReadOnlyStatement q) = false →
      isQueryValid q = true →
      cfg.wgName = [] →
      IsQID q = false →
      script.startRes = (some qid, none) →
      script.statusPolls = Except.ok ⟨QState.failed, none, stt⟩ :: restP →
      QueryContext cfg script query [] =
        (QCResult.fault,
         [RemoteCall.startCall q, RemoteCall.getExecCall qid])) := by
  refine ⟨?_, ?_, ?_⟩
  · intro qid mw stopRes ov ps evs stt
    simp [pollLoop]
  · intro qid mw stopRes ov ps evs stt r
    simp [pollLoop]
  · intro cfg script query q qid stt restP hparse hro hval hwg hqid hstart hpolls
    rw [queryContext_plain_to_loop cfg script query q qid hparse hro hval hwg hqid hstart,
      hpolls]
    simp [pollLoop, mapLoopOut]

theorem pollLoop_failed_reason_deref_witness :
    QueryContext cfgBase scrFailedNoReason "SELECT 1".toList []
      = (QCResult.fault,
         [RemoteCall.startCall "SELECT 1".toList,
          RemoteCall.getExecCall "QID123".toList]) :=
  pollLoop_failed_reason_deref.2.2 cfgBase scrFailedNoReason
    "SELECT 1".toList "SELECT 1".toList "QID123".toList StmtType.dml []
    (by decide) (by decide) (by decide) (by decide) (by decide) rfl rfl
